import Mathlib

/-!
Verification of the EventSphere Admin Dashboard authentication and
authorization core: the static role-to-permission table, the permission
predicates, the token manager, and the auth-context operations
(checkAuth initialization, login, logout, updateUser), together with the
event decline operation of the events API client.

Pure functions of the source are embedded as Lean functions; effectful
operations (network calls, local storage) are embedded as explicit state
passing, with the outcome of each external call supplied as an
environment value (Except models a call that can throw).
-/

/-! ## Role and permission constants (app/contexts/AuthContext.tsx) -/

def ROLES.ADMIN : String := "Admin"

def ROLES.ORGANIZER : String := "Organizer"

def ROLES.PARTICIPANT : String := "Participant"

def ROLES.VISITOR : String := "Visitor"

def PERMISSIONS.CREATE_EVENT : String := "create_event"

def PERMISSIONS.EDIT_EVENT : String := "edit_event"

def PERMISSIONS.DELETE_EVENT : String := "delete_event"

def PERMISSIONS.APPROVE_EVENT : String := "approve_event"

def PERMISSIONS.PUBLISH_EVENT : String := "publish_event"

def PERMISSIONS.VIEW_ALL_EVENTS : String := "view_all_events"

def PERMISSIONS.MANAGE_USERS : String := "manage_users"

def PERMISSIONS.VIEW_USERS : String := "view_users"

def PERMISSIONS.UPDATE_USER_ROLES : String := "update_user_roles"

def PERMISSIONS.ACTIVATE_DEACTIVATE_USERS : String := "activate_deactivate_users"

def PERMISSIONS.MANAGE_REGISTRATIONS : String := "manage_registrations"

def PERMISSIONS.MARK_ATTENDANCE : String := "mark_attendance"

def PERMISSIONS.GENERATE_CERTIFICATES : String := "generate_certificates"

def PERMISSIONS.SYSTEM_SETTINGS : String := "system_settings"

def PERMISSIONS.VIEW_ANALYTICS : String := "view_analytics"

/-- The static role-to-permission table `ROLE_PERMISSIONS` of
AuthContext.tsx, a record keyed by role label; a lookup of a label with
no entry yields none (JS: undefined). -/
def ROLE_PERMISSIONS (role : String) : Option (List String) :=
  if role = ROLES.ADMIN then
    some [PERMISSIONS.CREATE_EVENT, PERMISSIONS.EDIT_EVENT,
      PERMISSIONS.DELETE_EVENT, PERMISSIONS.APPROVE_EVENT,
      PERMISSIONS.PUBLISH_EVENT, PERMISSIONS.VIEW_ALL_EVENTS,
      PERMISSIONS.MANAGE_USERS, PERMISSIONS.VIEW_USERS,
      PERMISSIONS.UPDATE_USER_ROLES, PERMISSIONS.ACTIVATE_DEACTIVATE_USERS,
      PERMISSIONS.MANAGE_REGISTRATIONS, PERMISSIONS.MARK_ATTENDANCE,
      PERMISSIONS.GENERATE_CERTIFICATES, PERMISSIONS.SYSTEM_SETTINGS,
      PERMISSIONS.VIEW_ANALYTICS]
  else if role = ROLES.ORGANIZER then
    some [PERMISSIONS.CREATE_EVENT, PERMISSIONS.EDIT_EVENT,
      PERMISSIONS.DELETE_EVENT, PERMISSIONS.VIEW_ALL_EVENTS,
      PERMISSIONS.MANAGE_REGISTRATIONS, PERMISSIONS.MARK_ATTENDANCE,
      PERMISSIONS.GENERATE_CERTIFICATES]
  else if role = ROLES.PARTICIPANT then some []
  else if role = ROLES.VISITOR then some []
  else none

/-- `hasRole(userRoles, requiredRole)` of AuthContext.tsx:
`userRoles.includes(requiredRole)`. -/
def hasRole (userRoles : List String) (requiredRole : String) : Bool :=
  userRoles.contains requiredRole

/-- `hasPermission(userRoles, permission)` of AuthContext.tsx:
`userRoles.some(role => { const rolePermissions = ROLE_PERMISSIONS[role];
return rolePermissions ? rolePermissions.includes(permission) : false; })`. -/
def hasPermission (userRoles : List String) (permission : String) : Bool :=
  userRoles.any (fun role =>
    match ROLE_PERMISSIONS role with
    | some rolePerms => rolePerms.contains permission
    | none => false)

/-- `isAdmin` of AuthContext.tsx. -/
def isAdmin (userRoles : List String) : Bool := hasRole userRoles ROLES.ADMIN

/-- `isOrganizer` of AuthContext.tsx. -/
def isOrganizer (userRoles : List String) : Bool :=
  hasRole userRoles ROLES.ORGANIZER

/-- `isAdminOrOrganizer` of AuthContext.tsx. -/
def isAdminOrOrganizer (userRoles : List String) : Bool :=
  isAdmin userRoles || isOrganizer userRoles

/-- Stated from the wording of the spec, for comparison with the source
predicate: the union of the static table entries of the roles in `R`,
an unknown role contributing the empty set. -/
def specPermissionSet : List String → List String
  | [] => []
  | role :: rest => (ROLE_PERMISSIONS role).getD [] ++ specPermissionSet rest

theorem mem_specPermissionSet_iff (R : List String) (p : String) :
    hasPermission R p = true ↔ p ∈ specPermissionSet R := by
  induction R with
  | nil => simp [hasPermission, specPermissionSet]
  | cons head tail ih =>
    simp only [hasPermission, List.any_cons, Bool.or_eq_true,
      specPermissionSet, List.mem_append] at *
    constructor
    · rintro (h | h)
      · left
        cases hperm : ROLE_PERMISSIONS head with
        | none => simp [hperm] at h
        | some ps =>
          simp only [hperm] at h
          simpa [Option.getD, hperm] using (List.elem_iff).mp h
      · right
        exact ih.mp h
    · rintro (h | h)
      · left
        cases hperm : ROLE_PERMISSIONS head with
        | none => simp [hperm, Option.getD] at h
        | some ps =>
          simp only [hperm, Option.getD] at h ⊢
          exact (List.elem_iff).mpr h
      · right
        exact ih.mpr h

/-- Claim C1: for every list of role labels R and permission p,
hasPermission(R, p) is true iff p appears in the union of the static
ROLE_PERMISSIONS table entries for the roles in R, a role with no table
entry contributing no permissions (fail-closed); in particular, on the
empty role list, hasRole and hasPermission are false for every argument. -/
theorem hasPermission_iff_union (R : List String) (p r : String) :
    (hasPermission R p = true ↔ p ∈ specPermissionSet R) ∧
    hasRole [] r = false ∧ hasPermission [] p = false :=
  ⟨mem_specPermissionSet_iff R p, rfl, rfl⟩

/-- Claim C4, counterexample: the admin role label in the code is
"Admin", not "Administrator"; the label "Administrator" has no entry in
ROLE_PERMISSIONS, so extending a role list with it is fail-closed and
does not grant approve_event, contrary to the claim as stated. -/
theorem hasPermission_administrator_label_false :
    hasPermission [ROLES.ORGANIZER, "Administrator"]
      PERMISSIONS.APPROVE_EVENT = false := by decide

/-- Claim C4, amended: changing a role list from [Organizer] to
[Organizer, Admin] — "Admin" being the code label of the administrator
role — flips hasPermission for the admin-only permission approve_event
from false to true; hasPermission is a pure function of the role list,
so the new list immediately evaluates to true with no cache
invalidation step. -/
theorem hasPermission_admin_label_flip :
    hasPermission [ROLES.ORGANIZER] PERMISSIONS.APPROVE_EVENT = false ∧
    hasPermission [ROLES.ORGANIZER, ROLES.ADMIN]
      PERMISSIONS.APPROVE_EVENT = true := by
  exact ⟨by decide, by decide⟩

/-- Claim C10: hasPermission and hasRole are monotone in the role list:
appending a further role never revokes a permission or a role
membership. -/
theorem hasPermission_hasRole_monotone (R : List String) (r p q : String) :
    (hasPermission R q = true → hasPermission (R ++ [r]) q = true) ∧
    (hasRole R p = true → hasRole (R ++ [r]) p = true) := by
  constructor
  · intro h
    simp only [hasPermission, List.any_append, Bool.or_eq_true]
    exact Or.inl h
  · intro h
    have hm : p ∈ R := List.elem_iff.mp h
    exact List.elem_iff.mpr (List.mem_append_left _ hm)

/-- Claim C10, witness: the monotonicity theorem applied to the role
list [Admin] extended with the role Organizer. -/
theorem hasPermission_hasRole_monotone_witness :
    hasPermission ([ROLES.ADMIN] ++ [ROLES.ORGANIZER])
      PERMISSIONS.APPROVE_EVENT = true ∧
    hasRole ([ROLES.ADMIN] ++ [ROLES.ORGANIZER]) ROLES.ADMIN = true := by
  have h := hasPermission_hasRole_monotone [ROLES.ADMIN] ROLES.ORGANIZER
    ROLES.ADMIN PERMISSIONS.APPROVE_EVENT
  exact ⟨h.1 (by decide), h.2 (by decide)⟩

/-! ## User record and token manager -/

/-- Modelled from the spec: the User identity record of section 3
(types/auth.ts is not under src) — id, email, display name, list of
role labels, active flag. -/
structure User where
  id : String
  email : String
  full_name : String
  roles : List String
  is_active : Bool
deriving Repr, DecidableEq

/-- A concrete user record used by concrete-input theorems. -/
def demoUser : User :=
  { id := "u1", email := "org@example.com", full_name := "Olu Org",
    roles := [ROLES.ORGANIZER], is_active := true }

/-- Modelled from the spec: the Session/Token Manager of section 4.1
(lib/utils/api.ts is not under src) keeps a single persisted token
slot, here the state threaded through its operations. -/
def TokenStore : Type := Option String

/-- Modelled from the spec: set(token) persists the token, overwriting
any prior value. -/
def tokenManager.set (t : String) (_s : TokenStore) : TokenStore := some t

/-- Modelled from the spec: get() returns the current token or the
nothing-present sentinel; never throws. -/
def tokenManager.get (s : TokenStore) : Option String := s

/-- Modelled from the spec: remove() clears the persisted token;
idempotent. -/
def tokenManager.remove (_s : TokenStore) : TokenStore := none

/-- Modelled from the spec: getAuthHeader() is the pure header-value
form of the current token — a bearer header derived deterministically
from the token — or the absent header when no token is present. -/
def tokenManager.getAuthHeader (s : TokenStore) : Option String :=
  (tokenManager.get s).map (fun t => "Bearer " ++ t)

/-- Claim C6: token manager round-trip — after set(t), get() returns t
and getAuthHeader() returns the header derived from t; after remove(),
get() returns the absent sentinel and getAuthHeader() is absent. -/
theorem tokenManager_roundtrip (s : TokenStore) (t : String) :
    tokenManager.get (tokenManager.set t s) = some t ∧
    tokenManager.getAuthHeader (tokenManager.set t s) =
      some ("Bearer " ++ t) ∧
    tokenManager.get (tokenManager.remove s) = none ∧
    tokenManager.getAuthHeader (tokenManager.remove s) = none :=
  ⟨rfl, rfl, rfl, rfl⟩

/-! ## Initialization (checkAuth of AuthContext.tsx)

The environment fixes the outcome of each external interaction:
the stored token read at entry, the localStorage cached-profile read
(getItem plus JSON.parse, which can throw), the result of
validateToken on the stored token, the refresh step, and the result of
validateToken on the token found after the refresh. Modelled from the
spec where the callees are not under src: validateToken
(lib/api/auth.ts) resolves to a user, resolves to no user, or throws;
refreshAccessToken (lib/api/auth.ts) either throws or completes, and
the refresh field carries what tokenManager.get() returns right after
it completes (on success the rotated token is stored). -/

structure CheckAuthEnv where
  storedToken : Option String
  cachedRead : Except Unit (Option User)
  validate1 : Except Unit (Option User)
  refresh : Except Unit (Option String)
  validate2 : Except Unit (Option User)

/-- The observable outcome of one checkAuth run: final user, final
stored token, how many times setIsLoading(false) ran, and how many
times refreshAccessToken was called. -/
structure CheckAuthState where
  user : Option User
  token : Option String
  loadingFalseCount : Nat
  refreshCalls : Nat
deriving Repr, DecidableEq

/-- The setIsLoading(false) call performed during cached-profile
hydration: it runs exactly when getItem returned a value and JSON.parse
succeeded. -/
def hydrationLoads (cachedRead : Except Unit (Option User)) : Nat :=
  match cachedRead with
  | .ok (some _) => 1
  | _ => 0

/-- The optimistic setUser performed during cached-profile hydration. -/
def hydrationUser (cachedRead : Except Unit (Option User)) : Option User :=
  match cachedRead with
  | .ok (some u) => some u
  | _ => none

/-- The checkAuth initialization sequence of AuthContext.tsx. With no
stored token the body is skipped and only the finally clause runs. With
a token, hydration runs first (its own try swallows a parse throw);
then validateToken: a user updates state, no user triggers one
refreshAccessToken call followed by a re-validation of the token then
present (a user updates state, otherwise tokenManager.remove plus
setUser(null)), and a throw anywhere in that chain is caught by the
inner catch, which also does tokenManager.remove plus setUser(null).
When the refresh completes but no token is stored the code takes no
further action. The finally clause always runs setIsLoading(false)
once more. The outer catch is unreachable: every throwing operation is
inside an inner try. -/
def checkAuth (env : CheckAuthEnv) : CheckAuthState :=
  match env.storedToken with
  | none =>
    { user := none, token := none, loadingFalseCount := 1,
      refreshCalls := 0 }
  | some tok =>
    let hyd := hydrationLoads env.cachedRead
    let s : CheckAuthState :=
      match env.validate1 with
      | .ok (some u) =>
        { user := some u, token := some tok, loadingFalseCount := hyd,
          refreshCalls := 0 }
      | .ok none =>
        match env.refresh with
        | .ok (some newTok) =>
          match env.validate2 with
          | .ok (some u) =>
            { user := some u, token := some newTok,
              loadingFalseCount := hyd, refreshCalls := 1 }
          | .ok none =>
            { user := none, token := none, loadingFalseCount := hyd,
              refreshCalls := 1 }
          | .error _ =>
            { user := none, token := none, loadingFalseCount := hyd,
              refreshCalls := 1 }
        | .ok none =>
          { user := hydrationUser env.cachedRead, token := none,
            loadingFalseCount := hyd, refreshCalls := 1 }
        | .error _ =>
          { user := none, token := none, loadingFalseCount := hyd,
            refreshCalls := 1 }
      | .error _ =>
        { user := none, token := none, loadingFalseCount := hyd,
          refreshCalls := 0 }
    { s with loadingFalseCount := s.loadingFalseCount + 1 }

/-- A run in which validateToken throws on the stored token. -/
def envThrownValidation : CheckAuthEnv :=
  { storedToken := some "tok0", cachedRead := Except.ok none,
    validate1 := Except.error (), refresh := Except.ok (some "tok1"),
    validate2 := Except.ok none }

/-- Claim C2, counterexample: when validateToken throws (one of the two
validation-failure modes the claim covers), the inner catch clears auth
immediately and refreshAccessToken is never called — zero refresh
calls, not the one the claim requires. -/
theorem checkAuth_thrown_validation_no_refresh :
    (checkAuth envThrownValidation).refreshCalls = 0 ∧
    ¬ (checkAuth envThrownValidation).refreshCalls = 1 := by decide

/-- Claim C2, amended: starting with a stored token, when validateToken
resolves to no user (without throwing) checkAuth performs exactly one
token-refresh call, and if the refresh throws, or it completes and the
re-validation resolves to no user or throws, the final state has the
user absent and the stored token cleared; when validateToken throws, no
refresh call is made and the user and token are cleared immediately. -/
theorem checkAuth_refresh_once (env : CheckAuthEnv) (t : String)
    (h : env.storedToken = some t) :
    (env.validate1 = Except.ok none →
      (checkAuth env).refreshCalls = 1 ∧
      ((env.refresh = Except.error () ∨
        (∃ nt, env.refresh = Except.ok (some nt) ∧
          (env.validate2 = Except.ok none ∨
           env.validate2 = Except.error ()))) →
        (checkAuth env).user = none ∧ (checkAuth env).token = none)) ∧
    (env.validate1 = Except.error () →
      (checkAuth env).refreshCalls = 0 ∧
      (checkAuth env).user = none ∧ (checkAuth env).token = none) := by
  obtain ⟨st, cr, v1, rf, v2⟩ := env
  dsimp only at h ⊢
  subst h
  constructor
  · intro h1
    subst h1
    constructor
    · rcases rf with e | (_ | nt) <;>
        rcases v2 with e2 | (_ | u2) <;>
        simp [checkAuth]
    · rintro (hrf | ⟨nt, hrf, hv2⟩)
      · subst hrf
        simp [checkAuth]
      · subst hrf
        rcases hv2 with hv2 | hv2 <;> subst hv2 <;>
          exact ⟨by simp [checkAuth], by simp [checkAuth]⟩
  · intro h1
    subst h1
    exact ⟨by simp [checkAuth], by simp [checkAuth], by simp [checkAuth]⟩

/-- A run in which validateToken resolves to no user and the refresh
throws. -/
def envRefreshFails : CheckAuthEnv :=
  { storedToken := some "tok0", cachedRead := Except.ok none,
    validate1 := Except.ok none, refresh := Except.error (),
    validate2 := Except.ok none }

/-- Claim C2, witness: the amended theorem applied to a run whose
stored token fails validation with no user and whose refresh throws. -/
theorem checkAuth_refresh_once_witness :
    (checkAuth envRefreshFails).refreshCalls = 1 ∧
    (checkAuth envRefreshFails).user = none ∧
    (checkAuth envRefreshFails).token = none := by
  have h := (checkAuth_refresh_once envRefreshFails "tok0" rfl).1 rfl
  exact ⟨h.1, (h.2 (Or.inl rfl)).1, (h.2 (Or.inl rfl)).2⟩

/-- A run with a stored token and a readable cached profile. -/
def envCachedHydration : CheckAuthEnv :=
  { storedToken := some "tok0",
    cachedRead := Except.ok (some demoUser),
    validate1 := Except.ok (some demoUser),
    refresh := Except.ok none, validate2 := Except.ok none }

/-- Claim C9, counterexample: on the cached-profile hydration path,
setIsLoading(false) runs twice — once at hydration for immediate
rendering and once in the finally clause — not exactly once as the
claim states. -/
theorem checkAuth_loading_twice :
    (checkAuth envCachedHydration).loadingFalseCount = 2 ∧
    ¬ (checkAuth envCachedHydration).loadingFalseCount = 1 := by decide

/-- Claim C9, amended: every execution branch of checkAuth sets the
loading flag to false at least once before terminating; the count is
exactly two on the cached-profile hydration path (a stored token
together with a successfully parsed cached profile) and exactly one on
every other path. -/
theorem checkAuth_loading_characterization (env : CheckAuthEnv) :
    1 ≤ (checkAuth env).loadingFalseCount ∧
    (checkAuth env).loadingFalseCount =
      (match env.storedToken, env.cachedRead with
       | some _, Except.ok (some _) => 2
       | _, _ => 1) := by
  obtain ⟨st, cr, v1, rf, v2⟩ := env
  rcases st with _ | tok <;>
    rcases cr with e | (_ | c) <;>
    rcases v1 with e1 | (_ | u1) <;>
    rcases rf with e2 | (_ | nt) <;>
    rcases v2 with e3 | (_ | u2) <;>
    simp [checkAuth, hydrationLoads]

/-! ## login and logout (AuthContext.tsx) -/

/-- The shared auth-context view state touched by login: the current
user and the shared error slot. -/
structure AuthViewState where
  user : Option User
  error : Option String
deriving Repr, DecidableEq

/-- The outcome of the loginUser backend call: a user record, a thrown
ApiError carrying a message, or a thrown non-ApiError value. -/
inductive LoginOutcome where
  | success (u : User)
  | apiError (msg : String)
  | otherError
deriving Repr, DecidableEq

/-- The login operation of AuthContext.tsx: setError(null) first; on
success setUser with the returned record; on a throw, store the
message of an ApiError (or the fallback text otherwise) in the error
slot and re-throw. The returned flag records whether the error was
re-thrown to the caller. -/
def login (r : LoginOutcome) (s : AuthViewState) : AuthViewState × Bool :=
  let s1 : AuthViewState := { s with error := none }
  match r with
  | .success u => ({ s1 with user := some u }, false)
  | .apiError msg => ({ s1 with error := some msg }, true)
  | .otherError => ({ s1 with error := some "Login failed" }, true)

/-- Claim C5: a login failing with an API error leaves an absent user
absent, stores the error message in the shared error slot, and
re-throws; a subsequent successful login clears the stored error to
null and sets the user to the returned record. -/
theorem login_failure_then_success (s : AuthViewState) (msg : String)
    (u : User) (h : s.user = none) :
    (login (.apiError msg) s).1.user = none ∧
    (login (.apiError msg) s).1.error = some msg ∧
    (login (.apiError msg) s).2 = true ∧
    (login (.success u) (login (.apiError msg) s).1).1.error = none ∧
    (login (.success u) (login (.apiError msg) s).1).1.user = some u := by
  simp [login, h]

/-- Claim C5, witness: the login theorem applied to the empty state, a
rejected credential message, and a subsequent successful login. -/
theorem login_failure_then_success_witness :
    (login (.apiError "Invalid credentials") ⟨none, none⟩).1.user = none ∧
    (login (.apiError "Invalid credentials") ⟨none, none⟩).1.error =
      some "Invalid credentials" ∧
    (login (.apiError "Invalid credentials") ⟨none, none⟩).2 = true ∧
    (login (.success demoUser)
      (login (.apiError "Invalid credentials") ⟨none, none⟩).1).1.error =
      none ∧
    (login (.success demoUser)
      (login (.apiError "Invalid credentials") ⟨none, none⟩).1).1.user =
      some demoUser :=
  login_failure_then_success ⟨none, none⟩ "Invalid credentials" demoUser rfl

/-- Modelled from the spec: logoutUser (lib/api/auth.ts, not under src)
performs the best-effort backend logout; on completion the stored token
is cleared, and a transport failure surfaces as a thrown error leaving
the token as it was. The argument fixes whether the call throws. -/
def logoutUser (r : Except Unit Unit) (_tok : Option String) :
    Except Unit (Option String) :=
  match r with
  | .ok _ => .ok none
  | .error e => .error e

/-- The logout operation of AuthContext.tsx: await logoutUser(), then
setUser(null); the catch only logs the failure, so on a throw neither
setUser(null) nor any token clearing runs. Result: final user and
final stored token. -/
def logout (r : Except Unit Unit) (user0 : Option User)
    (tok0 : Option String) : Option User × Option String :=
  match logoutUser r tok0 with
  | .ok tok1 => (none, tok1)
  | .error _ => (user0, tok0)

/-- Claim C3, code evaluated at the failing input: when the backend
logout call throws, the catch in logout only logs, so the user and the
stored token both survive — the code contradicts the stated
always-clears contract, which holds only on the success path. -/
theorem logout_backend_failure_keeps_user :
    logout (Except.error ()) (some demoUser) (some "tok0") =
      (some demoUser, some "tok0") ∧
    logout (Except.ok ()) (some demoUser) (some "tok0") = (none, none) :=
  ⟨rfl, rfl⟩

/-! ## updateUser (AuthContext.tsx) -/

/-- A partial-fields record over User (TS: Partial of User); a present
field carries the replacement value. -/
structure UserPatch where
  id : Option String := none
  email : Option String := none
  full_name : Option String := none
  roles : Option (List String) := none
  is_active : Option Bool := none
deriving Repr, DecidableEq

/-- The JS spread merge of updateUser: fields present in the patch take
the patch value, every other field keeps the previous value. -/
def mergeUser (prev : User) (p : UserPatch) : User :=
  { id := p.id.getD prev.id,
    email := p.email.getD prev.email,
    full_name := p.full_name.getD prev.full_name,
    roles := p.roles.getD prev.roles,
    is_active := p.is_active.getD prev.is_active }

/-- The updateUser operation of AuthContext.tsx: with no current user
the updater returns the previous (absent) value and nothing else runs;
with a current user the merged record replaces the user and is written
to the local profile cache (localStorage key auth_user), the write
being swallowed when storage fails. Arguments: the patch, the current
user, the current cache entry, and whether the storage write succeeds;
result: final user and final cache entry. -/
def updateUser (p : UserPatch) (user0 : Option User)
    (cache0 : Option User) (storageOk : Bool) :
    Option User × Option User :=
  match user0 with
  | none => (none, cache0)
  | some prev =>
    let next := mergeUser prev p
    (some next, if storageOk then some next else cache0)

/-- Claim C7: with a user set, updateUser replaces the user with the
merge of the current user and the patch and writes the merged record to
the profile cache; fields named in the patch take the patch values and
all other fields are unchanged; with no user set, updateUser leaves the
state unchanged and writes nothing. -/
theorem updateUser_merge_spec (p : UserPatch) (prev : User)
    (c0 : Option User) (ok : Bool) :
    (updateUser p (some prev) c0 ok).1 = some (mergeUser prev p) ∧
    (ok = true →
      (updateUser p (some prev) c0 ok).2 = some (mergeUser prev p)) ∧
    updateUser p none c0 ok = (none, c0) ∧
    (∀ v, p.id = some v → (mergeUser prev p).id = v) ∧
    (p.id = none → (mergeUser prev p).id = prev.id) ∧
    (∀ v, p.email = some v → (mergeUser prev p).email = v) ∧
    (p.email = none → (mergeUser prev p).email = prev.email) ∧
    (∀ v, p.full_name = some v → (mergeUser prev p).full_name = v) ∧
    (p.full_name = none → (mergeUser prev p).full_name = prev.full_name) ∧
    (∀ v, p.roles = some v → (mergeUser prev p).roles = v) ∧
    (p.roles = none → (mergeUser prev p).roles = prev.roles) ∧
    (∀ v, p.is_active = some v → (mergeUser prev p).is_active = v) ∧
    (p.is_active = none → (mergeUser prev p).is_active = prev.is_active) := by
  refine ⟨rfl, fun hok => by simp [updateUser, hok], rfl,
    fun v hv => by simp [mergeUser, hv],
    fun hv => by simp [mergeUser, hv],
    fun v hv => by simp [mergeUser, hv],
    fun hv => by simp [mergeUser, hv],
    fun v hv => by simp [mergeUser, hv],
    fun hv => by simp [mergeUser, hv],
    fun v hv => by simp [mergeUser, hv],
    fun hv => by simp [mergeUser, hv],
    fun v hv => by simp [mergeUser, hv],
    fun hv => by simp [mergeUser, hv]⟩

/-- A concrete patch renaming the email field only. -/
def demoPatch : UserPatch := { email := some "new@example.com" }

/-- Claim C7, witness: the updateUser theorem applied to the demo user,
an empty cache, a successful storage write, and a patch that renames
the email only. -/
theorem updateUser_merge_witness :
    (updateUser demoPatch (some demoUser) none true).1 =
      some (mergeUser demoUser demoPatch) ∧
    (updateUser demoPatch (some demoUser) none true).2 =
      some (mergeUser demoUser demoPatch) ∧
    (mergeUser demoUser demoPatch).email = "new@example.com" ∧
    (mergeUser demoUser demoPatch).roles = demoUser.roles := by
  obtain ⟨h1, h2, _, _, _, h6, _, _, _, _, h11, _, _⟩ :=
    updateUser_merge_spec demoPatch demoUser none true
  exact ⟨h1, h2 rfl, h6 "new@example.com" rfl, h11 rfl⟩

/-! ## Events API client (lib/api/events.ts) -/

/-- The lifecycle status field of an event. -/
inductive EventStatus where
  | pending
  | approved
  | cancelled
deriving Repr, DecidableEq

/-- The UpdateEventRequest payload of lib/api/events.ts: every field of
CreateEventRequest made optional, plus optional status and
is_published. An absent field is omitted from the JSON body. -/
structure UpdateEventRequest where
  title : Option String := none
  description : Option String := none
  date : Option String := none
  time : Option String := none
  venue : Option String := none
  capacity : Option Nat := none
  max_participants : Option Nat := none
  category_id : Option String := none
  featured_image_url : Option String := none
  gallery_image_urls : Option (List String) := none
  status : Option EventStatus := none
  is_published : Option Bool := none
deriving Repr, DecidableEq

/-- The HTTP method of an API call. -/
inductive HttpMethod where
  | get
  | post
  | put
  | delete
deriving Repr, DecidableEq

/-- The request an events-API function hands to the transport layer:
method, path, and the update payload when one is sent. -/
structure EventApiCall where
  method : HttpMethod
  path : String
  body : Option UpdateEventRequest
deriving Repr, DecidableEq

/-- updateEvent of lib/api/events.ts: a PUT of the payload to the
generic per-event endpoint. -/
def updateEvent (eventId : String) (eventData : UpdateEventRequest) :
    EventApiCall :=
  { method := HttpMethod.put,
    path := "/api/v1/admin/events/" ++ eventId,
    body := some eventData }

/-- approveEvent of lib/api/events.ts: a POST with no body to the
dedicated approve endpoint. -/
def approveEvent (eventId : String) : EventApiCall :=
  { method := HttpMethod.post,
    path := "/api/v1/admin/events/" ++ eventId ++ "/approve",
    body := none }

/-- declineEvent of lib/api/events.ts: a call to updateEvent with the
payload consisting solely of status set to cancelled. -/
def declineEvent (eventId : String) : EventApiCall :=
  updateEvent eventId { status := some EventStatus.cancelled }

/-- Claim C8: for every event id, declineEvent issues exactly the
request of updateEvent with a payload whose only present field is
status set to cancelled — a PUT to the generic per-event endpoint, not
a call to any dedicated decline endpoint. -/
theorem declineEvent_eq_updateEvent (eventId : String) :
    declineEvent eventId =
      updateEvent eventId { status := some EventStatus.cancelled } ∧
    (declineEvent eventId).method = HttpMethod.put ∧
    (declineEvent eventId).path = "/api/v1/admin/events/" ++ eventId ∧
    (declineEvent eventId).body =
      some { status := some EventStatus.cancelled } :=
  ⟨rfl, rfl, rfl, rfl⟩
